import Mathlib

/-!
# Inventory management system: a shallow embedding and verification

This file embeds the inventory ledger engine of the repository
(`database.py`, the SQLite-backed CRUD + audit-log operations) and the
relevant parts of its HTTP adapter (`main.py`: the Pydantic `ProductCreate`
model and the `/search` handler) as executable Lean definitions, and proves
the specification's testable properties about them.

Modelling conventions:
* A SQLite database holding the `products` and `inventory_transactions`
  tables becomes a `DBState`: two lists of rows plus the `AUTOINCREMENT`
  counters and a logical clock supplying `CURRENT_TIMESTAMP` values
  (strictly monotone across writes).
* `get_db_connection` (commit on success, rollback on any exception) becomes
  `runAtomic`: if the body of the atomic unit fails, the observable state is
  the pre-call state.
* Python exceptions raised by the engine are modelled as the tagged error
  type `DBErr`; each constructor corresponds to a distinct `raise` site in
  `database.py` (all of which raise `ValueError` with distinct messages).
* `log_transaction` performs the `INSERT INTO inventory_transactions`; its
  `insertOk` parameter models whether the underlying store accepts the
  insert (`false` injects a storage failure, used for the atomicity
  property).  All normal-path results use `insertOk = true`.
-/

/-- A row of the `products` table (`database.py`, `setup_database`). -/
structure Product where
  id : Nat
  product_name : String
  quantity : Int
  created_at : Nat
  updated_at : Nat
deriving DecidableEq, Repr

/-- A row of the `inventory_transactions` table (`database.py`, `setup_database`). -/
structure InvTxn where
  id : Nat
  product_id : Nat
  transaction_type : String
  old_quantity : Option Int
  new_quantity : Int
  change_amount : Int
  performed_at : Nat
deriving DecidableEq, Repr

deriving instance DecidableEq for Except

/-- The persistent store: both tables, the `AUTOINCREMENT` counters and a
logical clock producing `CURRENT_TIMESTAMP` values. -/
structure DBState where
  products : List Product
  transactions : List InvTxn
  next_product_id : Nat
  next_txn_id : Nat
  clock : Nat
deriving DecidableEq, Repr

/-- The freshly initialised database (`setup_database` on an empty file);
SQLite `AUTOINCREMENT` starts at 1. -/
def dbInit : DBState := ⟨[], [], 1, 1, 0⟩

/-- Tagged rendition of the exceptions raised by `database.py`.  Every raise
site there uses `ValueError` with a distinct message; the constructors
record the distinct meanings (the spec's error taxonomy):
* `validation`: out-of-range/malformed input checks;
* `duplicate`: the UNIQUE-name `sqlite3.IntegrityError` re-raised in
  `create_product`;
* `notFound`: the `does not exist` checks;
* `insufficientStock`: the stock check in `order_product`;
* `storage`: the underlying store failed (a failed SQL statement). -/
inductive DBErr where
  | validation (msg : String)
  | duplicate (name : String)
  | notFound (pid : Nat)
  | insufficientStock (available requested : Int)
  | storage
deriving DecidableEq, Repr

/-- `true` iff the error is a validation error. -/
def DBErr.isValidation : DBErr → Bool
  | .validation _ => true
  | _ => false

/-- `true` iff the outcome is a validation error. -/
def exceptIsValidation {α : Type} : Except DBErr α → Bool
  | .error e => e.isValidation
  | .ok _ => false

/-- Models Python's `str.isalnum()`: non-empty and every character
alphanumeric.  (`Char.isAlphanum` is the ASCII approximation of Python's
Unicode notion; exact on the ASCII names appearing in this development.) -/
def pyIsalnum (s : String) : Bool :=
  !s.isEmpty && s.toList.all Char.isAlphanum

/-- Models Python's `str.strip()` (also Pydantic's `str_strip_whitespace`):
removes leading and trailing whitespace. -/
def pyStrip (s : String) : String :=
  ⟨((s.toList.dropWhile Char.isWhitespace).reverse.dropWhile Char.isWhitespace).reverse⟩

/-- `get_db_connection` (`database.py` lines 9-27): the body of the `with`
block runs against the connection; on success the transaction is committed
(the new state becomes visible), on any exception it is rolled back (the
observable state is unchanged) and the exception propagates. -/
def runAtomic {α : Type} (s : DBState) (body : Except DBErr (DBState × α)) :
    DBState × Except DBErr α :=
  match body with
  | .error e => (s, .error e)
  | .ok (s', a) => (s', .ok a)

/-- `log_transaction` (`database.py` lines 341-352): inserts one row into
`inventory_transactions` with `change_amount = new - (old or 0)` and
`performed_at = CURRENT_TIMESTAMP`.  `insertOk = false` models the
underlying `INSERT` failing at the store level. -/
def log_transaction (insertOk : Bool) (pid : Nat) (ttype : String)
    (oldq : Option Int) (newq : Int) (s : DBState) : Except DBErr DBState :=
  if insertOk then
    .ok { s with
      transactions := s.transactions ++
        [⟨s.next_txn_id, pid, ttype, oldq, newq, newq - oldq.getD 0, s.clock⟩],
      next_txn_id := s.next_txn_id + 1,
      clock := s.clock + 1 }
  else .error .storage

/-- `SELECT * FROM products WHERE id = ?` (`get_product_by_id`). -/
def getProduct (pid : Nat) (s : DBState) : Option Product :=
  s.products.find? (fun p => p.id == pid)

/-- The current quantity of a product, if present. -/
def getQuantity (pid : Nat) (s : DBState) : Option Int :=
  (getProduct pid s).map Product.quantity

/-- `create_product` (`database.py` lines 71-111): validates the name
(`isalnum`) and quantity, then atomically inserts the product row and logs a
CREATE transaction.  A pre-existing name makes the `INSERT` raise
`sqlite3.IntegrityError` (UNIQUE constraint), re-raised as the duplicate
error; modelled by the name-membership test. -/
def create_product (insertOk : Bool) (name : String) (qty : Int)
    (s : DBState) : DBState × Except DBErr Product :=
  if !pyIsalnum name then
    (s, .error (.validation "Product name must contain only letters and numbers"))
  else if qty < 0 then
    (s, .error (.validation "Quantity cannot be negative"))
  else
    runAtomic s
      (if s.products.any (fun p => p.product_name == name) then
        .error (.duplicate name)
      else
        let pid := s.next_product_id
        let prod : Product := ⟨pid, name, qty, s.clock, s.clock⟩
        let s1 := { s with products := s.products ++ [prod],
                           next_product_id := pid + 1 }
        (log_transaction insertOk pid "CREATE" none qty s1).map
          (fun s2 => (s2, prod)))

/-- `update_product_quantity` (`database.py` lines 169-211): validates the
new quantity, reads the current row, issues the `UPDATE` and logs an
`UPDATE` transaction, all in one atomic unit. -/
def update_product_quantity (insertOk : Bool) (pid : Nat) (newq : Int)
    (s : DBState) : DBState × Except DBErr Product :=
  if newq < 0 then
    (s, .error (.validation "Quantity cannot be negative"))
  else
    runAtomic s
      (match s.products.find? (fun p => p.id == pid) with
      | none => .error (.notFound pid)
      | some p =>
        let ps := s.products.map (fun r =>
          if r.id == pid then { r with quantity := newq, updated_at := s.clock } else r)
        let s1 := { s with products := ps }
        (log_transaction insertOk pid "UPDATE" (some p.quantity) newq s1).map
          (fun s2 => (s2, { p with quantity := newq, updated_at := s.clock })))

/-- `add_quantity_to_product` (`database.py` lines 213-256): validates the
delta, reads the current row, adds, and logs an `ADD_QUANTITY` transaction. -/
def add_quantity_to_product (insertOk : Bool) (pid : Nat) (addq : Int)
    (s : DBState) : DBState × Except DBErr Product :=
  if addq ≤ 0 then
    (s, .error (.validation "Quantity to add must be positive"))
  else
    runAtomic s
      (match s.products.find? (fun p => p.id == pid) with
      | none => .error (.notFound pid)
      | some p =>
        let newq := p.quantity + addq
        let ps := s.products.map (fun r =>
          if r.id == pid then { r with quantity := newq, updated_at := s.clock } else r)
        let s1 := { s with products := ps }
        (log_transaction insertOk pid "ADD_QUANTITY" (some p.quantity) newq s1).map
          (fun s2 => (s2, { p with quantity := newq, updated_at := s.clock })))

/-- `order_product` (`database.py` lines 258-307): validates the delta,
reads the current row, refuses when `order_quantity > old_quantity`
(insufficient stock), then decrements and logs an `ORDER` transaction. -/
def order_product (insertOk : Bool) (pid : Nat) (oq : Int)
    (s : DBState) : DBState × Except DBErr Product :=
  if oq ≤ 0 then
    (s, .error (.validation "Order quantity must be positive"))
  else
    runAtomic s
      (match s.products.find? (fun p => p.id == pid) with
      | none => .error (.notFound pid)
      | some p =>
        if p.quantity < oq then
          .error (.insufficientStock p.quantity oq)
        else
          let newq := p.quantity - oq
          let ps := s.products.map (fun r =>
            if r.id == pid then { r with quantity := newq, updated_at := s.clock } else r)
          let s1 := { s with products := ps }
          (log_transaction insertOk pid "ORDER" (some p.quantity) newq s1).map
            (fun s2 => (s2, { p with quantity := newq, updated_at := s.clock })))

/-- `delete_product` (`database.py` lines 309-337): reads the row, then
`DELETE FROM products WHERE id = ?`; the `ON DELETE CASCADE` foreign key
(declared in `setup_database`, enforced because `get_db_connection` sets
`PRAGMA foreign_keys = ON`) removes the product's transactions. -/
def delete_product (pid : Nat) (s : DBState) : DBState × Except DBErr String :=
  runAtomic s
    (match s.products.find? (fun p => p.id == pid) with
    | none => .error (.notFound pid)
    | some p =>
      .ok ({ s with
              products := s.products.filter (fun r => !(r.id == pid)),
              transactions := s.transactions.filter (fun t => !(t.product_id == pid)) },
            p.product_name))

/-- All transaction rows belonging to one product, in insertion order
(`WHERE t.product_id = ?`). -/
def txnsFor (pid : Nat) (s : DBState) : List InvTxn :=
  s.transactions.filter (fun t => t.product_id == pid)

/-- Replays a transaction chain from a starting quantity: each entry must
have `old_quantity` equal to the running quantity and steps it to its
`new_quantity`; `none` when the chain does not link up. -/
def replayFrom (q : Int) : List InvTxn → Option Int
  | [] => some q
  | t :: rest => if t.old_quantity = some q then replayFrom t.new_quantity rest else none

/-- Replays a product's full transaction history: the first entry must be
the CREATE entry (`old_quantity` null), the replay starts from its
`new_quantity`. -/
def replay : List InvTxn → Option Int
  | [] => none
  | t :: rest =>
    if t.transaction_type = "CREATE" ∧ t.old_quantity = none then
      replayFrom t.new_quantity rest
    else none

/-- Insertion into a list sorted by `le` (SQL `ORDER BY`, modelled as a
stable insertion sort). -/
def insertSortedBy {α : Type} (le : α → α → Bool) (a : α) : List α → List α
  | [] => [a]
  | b :: l => if le a b then a :: b :: l else b :: insertSortedBy le a l

/-- Stable insertion sort by `le` (SQL `ORDER BY`). -/
def isortBy {α : Type} (le : α → α → Bool) : List α → List α
  | [] => []
  | a :: l => insertSortedBy le a (isortBy le l)

/-- The derived stock-status column of `get_all_products` (the SQL `CASE`
expression in `database.py` lines 119-128). -/
def stock_status (q : Int) : String :=
  if q = 0 then "Out of Stock" else if q < 5 then "Low Stock" else "In Stock"

/-- `get_all_products` (`database.py` lines 113-135): all products
`ORDER BY product_name`; each row is additionally annotated with
`stock_status product.quantity` (annotation derived, not stored). -/
def get_all_products (s : DBState) : List Product :=
  isortBy (fun a b => decide (a.product_name ≤ b.product_name)) s.products

/-- `get_transactions_by_product` (`database.py` lines 382-408): the
product's transactions joined with `products` for the name, newest first
(`ORDER BY performed_at DESC`). -/
def get_transactions_by_product (pid : Nat) (s : DBState) :
    List (InvTxn × String) :=
  isortBy (fun a b => decide (b.1.performed_at ≤ a.1.performed_at))
    ((s.transactions.filter (fun t => t.product_id == pid)).filterMap
      (fun t => (s.products.find? (fun p => p.id == t.product_id)).map
        (fun p => (t, p.product_name))))

/-- `get_all_transactions` (`database.py` lines 354-380): all transactions
joined with `products`, newest first, truncated to `limit` rows. -/
def get_all_transactions (limit : Nat) (s : DBState) : List (InvTxn × String) :=
  (isortBy (fun a b => decide (b.1.performed_at ≤ a.1.performed_at))
    (s.transactions.filterMap
      (fun t => (s.products.find? (fun p => p.id == t.product_id)).map
        (fun p => (t, p.product_name))))).take limit

/-- Whether `pat` occurs as a substring of `hay` (Python's `in` on strings),
case notwithstanding: callers lower-case both sides. -/
def strContains (hay pat : String) : Bool :=
  decide (pat.toList <:+: hay.toList)

/-- The body of the `/search` filtering loop (`main.py` lines 497-509): a
product is kept iff none of the four `continue` conditions fires. -/
def product_matches (nm : Option String) (minq maxq : Option Int)
    (instock : Option Bool) (p : Product) : Bool :=
  (match nm with
   | none => true
   | some n => if n = "" then true
               else strContains p.product_name.toLower n.toLower)
  && (match minq with
      | none => true
      | some a => !(p.quantity < a))
  && (match maxq with
      | none => true
      | some b => !(b < p.quantity))
  && (match instock with
      | none => true
      | some b => if b then !(p.quantity ≤ 0) else !(0 < p.quantity))

/-- An HTTP error response produced by a FastAPI handler
(`HTTPException(status_code, detail)` as rendered by the app's exception
handler). -/
structure HTTPError where
  status_code : Nat
  detail : String
deriving DecidableEq, Repr

/-- `search_products` (`main.py` lines 478-512).  The whole handler body is
wrapped in `try ... except Exception`, which converts every exception —
including the handler's own `HTTPException(400)` for `min > max` — into
`HTTPException(500, "Internal server error: ...")`.  The range check
`min_quantity > max_quantity and min_quantity is not None and ...`
evaluates the comparison first, so whenever either bound is absent Python
raises `TypeError` (`>` unsupported with `None`), likewise caught and
surfaced as 500.  Detail strings approximate `str(e)`. -/
def search_products (nm : Option String) (minq maxq : Option Int)
    (instock : Option Bool) (s : DBState) : Except HTTPError (List Product) :=
  let ps := get_all_products s
  match minq, maxq with
  | some a, some b =>
    if b < a then
      .error ⟨500, "Internal server error: 400: min_quantity cannot be greater than max_quantity"⟩
    else
      .ok (ps.filter (product_matches nm minq maxq instock))
  | _, _ =>
    .error ⟨500, "Internal server error: '>' not supported between instances of 'NoneType' and 'int'"⟩

/-- The Pydantic `ProductCreate` model (`main.py` lines 45-64):
`str_strip_whitespace` strips the name, `Field` enforces `min_length 1` and
`max_length 100`, the field validator enforces `isalnum`, and the quantity
must be ≥ 0 (`Field ge=0` and the validator).  Error strings follow the
Pydantic messages asserted by the repository's tests. -/
def validate_ProductCreate (raw_name : String) (quantity : Int) :
    Except String (String × Int) :=
  let name := pyStrip raw_name
  if name.length < 1 then .error "String should have at least 1 character"
  else if 100 < name.length then .error "String should have at most 100 characters"
  else if !pyIsalnum name then .error "Product name must be alphanumeric"
  else if quantity < 0 then .error "Input should be greater than or equal to 0"
  else .ok (name, quantity)

/-- The `POST /products` handler (`main.py` lines 213-226): the request body
is parsed through `ProductCreate` (a 422 validation failure aborts before
the handler runs), then `database.create_product` is called. -/
def api_create_product (raw_name : String) (quantity : Int) (s : DBState) :
    DBState × Except DBErr Product :=
  match validate_ProductCreate raw_name quantity with
  | .error m => (s, .error (.validation m))
  | .ok (n, q) => create_product true n q s

/-! ## Generic helper lemmas -/

theorem replayFrom_append (l : List InvTxn) (t : InvTxn) (q : Int) :
    replayFrom q (l ++ [t]) =
      match replayFrom q l with
      | some q' => if t.old_quantity = some q' then some t.new_quantity else none
      | none => none := by
  induction l generalizing q with
  | nil => simp [replayFrom]
  | cons hd tl ih =>
    simp only [List.cons_append, replayFrom]
    split
    · exact ih _
    · rfl

theorem replay_append {l : List InvTxn} {t : InvTxn} {q : Int}
    (h : replay l = some q) (ht : t.old_quantity = some q) :
    replay (l ++ [t]) = some t.new_quantity := by
  cases l with
  | nil => simp [replay] at h
  | cons hd tl =>
    simp only [replay, List.cons_append] at h ⊢
    split at h
    · next hcond =>
      rw [if_pos hcond, replayFrom_append, h]
      simp [ht]
    · exact absurd h (by simp)

theorem mem_insertSortedBy {α : Type} (le : α → α → Bool) (a b : α) (l : List α) :
    b ∈ insertSortedBy le a l ↔ b = a ∨ b ∈ l := by
  induction l with
  | nil => simp [insertSortedBy]
  | cons c l ih =>
    simp only [insertSortedBy]
    split
    · simp [List.mem_cons]
    · simp only [List.mem_cons, ih]
      tauto

theorem mem_isortBy {α : Type} (le : α → α → Bool) (b : α) (l : List α) :
    b ∈ isortBy le l ↔ b ∈ l := by
  induction l with
  | nil => simp [isortBy]
  | cons c l ih => simp [isortBy, mem_insertSortedBy, ih]

theorem find?_map_id (l : List Product) (pid : Nat) (g : Product → Product)
    (hg : ∀ r, (g r).id = r.id) :
    (l.map g).find? (fun r => r.id == pid) = (l.find? (fun r => r.id == pid)).map g := by
  induction l with
  | nil => rfl
  | cons a l ih =>
    by_cases h : a.id = pid
    · simp [List.find?_cons, hg a, h]
    · simp [List.find?_cons, hg a, h, ih]

theorem filter_ne_filter_eq (l : List InvTxn) (pid pid2 : Nat) (h : pid2 ≠ pid) :
    (l.filter (fun t => !(t.product_id == pid))).filter (fun t => t.product_id == pid2)
      = l.filter (fun t => t.product_id == pid2) := by
  rw [List.filter_filter]
  apply List.filter_congr
  intro t _
  by_cases h2 : t.product_id = pid2
  · have h3 : t.product_id ≠ pid := by rw [h2]; exact h
    simp [h2, h3, h]
  · simp [h2]

/-! ## The reachable-state invariant -/

/-- The ledger-engine invariant maintained by every mutation:
non-negative stock, well-formed surrogate keys, a strictly monotone audit
trail whose per-product replay reconstructs the current quantity, and the
closed set of transaction types the code actually writes. -/
structure LedgerInv (s : DBState) : Prop where
  nonneg : ∀ p ∈ s.products, 0 ≤ p.quantity
  ids_nodup : (s.products.map Product.id).Nodup
  ids_lt : ∀ p ∈ s.products, p.id < s.next_product_id
  txn_pid_lt : ∀ t ∈ s.transactions, t.product_id < s.next_product_id
  perf_lt : ∀ t ∈ s.transactions, t.performed_at < s.clock
  perf_sorted : s.transactions.Pairwise (fun a b => a.performed_at < b.performed_at)
  types_ok : ∀ t ∈ s.transactions,
    t.transaction_type ∈ (["CREATE", "UPDATE", "ADD_QUANTITY", "ORDER"] : List String)
  ledger : ∀ p ∈ s.products, replay (txnsFor p.id s) = some p.quantity

/-- The states reachable from the fresh database through the successful
mutating operations of the ledger engine.  (Failed operations leave the
state unchanged — see the rollback lemmas — so closing over successes is
exhaustive.) -/
inductive Reachable : DBState → Prop where
  | init : Reachable dbInit
  | create {s s' : DBState} {n : String} {q : Int} {r : Product} :
      Reachable s → create_product true n q s = (s', .ok r) → Reachable s'
  | update {s s' : DBState} {pid : Nat} {q : Int} {r : Product} :
      Reachable s → update_product_quantity true pid q s = (s', .ok r) → Reachable s'
  | add {s s' : DBState} {pid : Nat} {d : Int} {r : Product} :
      Reachable s → add_quantity_to_product true pid d s = (s', .ok r) → Reachable s'
  | order {s s' : DBState} {pid : Nat} {d : Int} {r : Product} :
      Reachable s → order_product true pid d s = (s', .ok r) → Reachable s'
  | del {s s' : DBState} {pid : Nat} {nm : String} :
      Reachable s → delete_product pid s = (s', .ok nm) → Reachable s'

theorem create_ok_inv {s s' : DBState} {n : String} {q : Int} {r : Product}
    (h : create_product true n q s = (s', .ok r)) :
    pyIsalnum n = true ∧ ¬q < 0 ∧
    (∀ p ∈ s.products, p.product_name ≠ n) ∧
    r = ⟨s.next_product_id, n, q, s.clock, s.clock⟩ ∧
    s' = { s with
      products := s.products ++ [⟨s.next_product_id, n, q, s.clock, s.clock⟩],
      next_product_id := s.next_product_id + 1,
      transactions := s.transactions ++
        [⟨s.next_txn_id, s.next_product_id, "CREATE", none, q, q, s.clock⟩],
      next_txn_id := s.next_txn_id + 1,
      clock := s.clock + 1 } := by
  by_cases h1 : pyIsalnum n
  · by_cases h2 : q < 0
    · simp [create_product, h1, h2] at h
    · by_cases h3 : s.products.any (fun p => p.product_name == n)
      · simp [create_product, runAtomic, h1, h2, h3] at h
      · simp [create_product, runAtomic, log_transaction, Except.map, h1, h2, h3] at h
        obtain ⟨hs', hr⟩ := h
        have h3' : ∀ p ∈ s.products, p.product_name ≠ n := by
          simpa [List.any_eq_true] using h3
        exact ⟨h1, h2, h3', hr.symm, hs'.symm⟩
  · simp [create_product, h1] at h

theorem update_ok_inv {s s' : DBState} {pid : Nat} {q : Int} {r : Product}
    (h : update_product_quantity true pid q s = (s', .ok r)) :
    ¬q < 0 ∧ ∃ p, s.products.find? (fun x => x.id == pid) = some p ∧
      r = { p with quantity := q, updated_at := s.clock } ∧
      s' = { s with
        products := s.products.map (fun x =>
          if x.id = pid then { x with quantity := q, updated_at := s.clock } else x),
        transactions := s.transactions ++
          [⟨s.next_txn_id, pid, "UPDATE", some p.quantity, q, q - p.quantity, s.clock⟩],
        next_txn_id := s.next_txn_id + 1,
        clock := s.clock + 1 } := by
  by_cases h1 : q < 0
  · simp [update_product_quantity, h1] at h
  · rcases hf : s.products.find? (fun x => x.id == pid) with _ | p
    · simp [update_product_quantity, runAtomic, h1, hf] at h
    · simp [update_product_quantity, runAtomic, log_transaction, Except.map, h1, hf] at h
      obtain ⟨hs', hr⟩ := h
      exact ⟨h1, p, hf, hr.symm, hs'.symm⟩

theorem add_ok_inv {s s' : DBState} {pid : Nat} {d : Int} {r : Product}
    (h : add_quantity_to_product true pid d s = (s', .ok r)) :
    ¬d ≤ 0 ∧ ∃ p, s.products.find? (fun x => x.id == pid) = some p ∧
      r = { p with quantity := p.quantity + d, updated_at := s.clock } ∧
      s' = { s with
        products := s.products.map (fun x =>
          if x.id = pid then { x with quantity := p.quantity + d, updated_at := s.clock } else x),
        transactions := s.transactions ++
          [⟨s.next_txn_id, pid, "ADD_QUANTITY", some p.quantity, p.quantity + d, d, s.clock⟩],
        next_txn_id := s.next_txn_id + 1,
        clock := s.clock + 1 } := by
  by_cases h1 : d ≤ 0
  · simp [add_quantity_to_product, h1] at h
  · rcases hf : s.products.find? (fun x => x.id == pid) with _ | p
    · simp [add_quantity_to_product, runAtomic, h1, hf] at h
    · simp [add_quantity_to_product, runAtomic, log_transaction, Except.map, h1, hf] at h
      obtain ⟨hs', hr⟩ := h
      exact ⟨h1, p, hf, hr.symm, hs'.symm⟩

theorem order_ok_inv {s s' : DBState} {pid : Nat} {d : Int} {r : Product}
    (h : order_product true pid d s = (s', .ok r)) :
    ¬d ≤ 0 ∧ ∃ p, s.products.find? (fun x => x.id == pid) = some p ∧
      ¬p.quantity < d ∧
      r = { p with quantity := p.quantity - d, updated_at := s.clock } ∧
      s' = { s with
        products := s.products.map (fun x =>
          if x.id = pid then { x with quantity := p.quantity - d, updated_at := s.clock } else x),
        transactions := s.transactions ++
          [⟨s.next_txn_id, pid, "ORDER", some p.quantity, p.quantity - d, -d, s.clock⟩],
        next_txn_id := s.next_txn_id + 1,
        clock := s.clock + 1 } := by
  by_cases h1 : d ≤ 0
  · simp [order_product, h1] at h
  · rcases hf : s.products.find? (fun x => x.id == pid) with _ | p
    · simp [order_product, runAtomic, h1, hf] at h
    · by_cases h2 : p.quantity < d
      · simp [order_product, runAtomic, h1, hf, h2] at h
      · simp [order_product, runAtomic, log_transaction, Except.map, h1, hf, h2] at h
        obtain ⟨hs', hr⟩ := h
        exact ⟨h1, p, hf, h2, hr.symm, hs'.symm⟩

theorem delete_ok_inv {s s' : DBState} {pid : Nat} {nm : String}
    (h : delete_product pid s = (s', .ok nm)) :
    ∃ p, s.products.find? (fun x => x.id == pid) = some p ∧ nm = p.product_name ∧
      s' = { s with
        products := s.products.filter (fun x => !(x.id == pid)),
        transactions := s.transactions.filter (fun t => !(t.product_id == pid)) } := by
  rcases hf : s.products.find? (fun x => x.id == pid) with _ | p
  · simp [delete_product, runAtomic, hf] at h
  · simp [delete_product, runAtomic, hf] at h
    obtain ⟨hs', hr⟩ := h
    exact ⟨p, hf, hr.symm, hs'.symm⟩

theorem inv_create {s s' : DBState} {n : String} {q : Int} {r : Product}
    (hi : LedgerInv s) (h : create_product true n q s = (s', .ok r)) :
    LedgerInv s' := by
  obtain ⟨h1, h2, h3, hr, hs'⟩ := create_ok_inv h
  subst hs'
  have hq : 0 ≤ q := Int.not_lt.mp h2
  refine ⟨?_, ?_, ?_, ?_, ?_, ?_, ?_, ?_⟩ <;> dsimp only
  · -- nonneg
    intro p hp
    rcases List.mem_append.mp hp with hp | hp
    · exact hi.nonneg p hp
    · rw [List.mem_singleton] at hp
      subst hp
      exact hq
  · -- ids_nodup
    simp only [List.map_append, List.nodup_append]
    refine ⟨hi.ids_nodup, by simp, ?_⟩
    intro x hx
    simp only [List.mem_map] at hx
    obtain ⟨p, hp, hpx⟩ := hx
    have := hi.ids_lt p hp
    simp only [List.map_cons, List.map_nil, List.mem_singleton]
    omega
  · -- ids_lt
    intro p hp
    rcases List.mem_append.mp hp with hp | hp
    · have := hi.ids_lt p hp; omega
    · rw [List.mem_singleton] at hp; subst hp; simp
  · -- txn_pid_lt
    intro t ht
    rcases List.mem_append.mp ht with ht | ht
    · have := hi.txn_pid_lt t ht; omega
    · rw [List.mem_singleton] at ht; subst ht; simp
  · -- perf_lt
    intro t ht
    rcases List.mem_append.mp ht with ht | ht
    · have := hi.perf_lt t ht; omega
    · rw [List.mem_singleton] at ht; subst ht; simp
  · -- perf_sorted
    rw [List.pairwise_append]
    refine ⟨hi.perf_sorted, by simp, ?_⟩
    intro a ha b hb
    rw [List.mem_singleton] at hb
    subst hb
    exact hi.perf_lt a ha
  · -- types_ok
    intro t ht
    rcases List.mem_append.mp ht with ht | ht
    · exact hi.types_ok t ht
    · rw [List.mem_singleton] at ht; subst ht; simp
  · -- ledger
    intro p hp
    simp only [txnsFor]
    rcases List.mem_append.mp hp with hp | hp
    · have hlt := hi.ids_lt p hp
      rw [List.filter_append]
      have hnil : List.filter (fun t => t.product_id == p.id)
          [({ id := s.next_txn_id, product_id := s.next_product_id,
              transaction_type := "CREATE", old_quantity := none, new_quantity := q,
              change_amount := q, performed_at := s.clock } : InvTxn)] = [] := by
        simp only [List.filter_eq_nil_iff, List.mem_singleton]
        intro a ha
        subst ha
        simp only [beq_iff_eq]
        omega
      rw [hnil, List.append_nil]
      simpa [txnsFor] using hi.ledger p hp
    · rw [List.mem_singleton] at hp
      subst hp
      rw [List.filter_append]
      have hnil : List.filter (fun t =>
          t.product_id == (⟨s.next_product_id, n, q, s.clock, s.clock⟩ : Product).id)
          s.transactions = [] := by
        rw [List.filter_eq_nil_iff]
        intro t ht
        have := hi.txn_pid_lt t ht
        simp only [beq_iff_eq]
        omega
      rw [hnil, List.nil_append]
      simp [replay, replayFrom]

theorem inv_mutate {s : DBState} {pid : Nat} {p : Product} {newq ch : Int} {ty : String}
    (hi : LedgerInv s)
    (hf : s.products.find? (fun x => x.id == pid) = some p)
    (hq : 0 ≤ newq)
    (hty : ty ∈ (["CREATE", "UPDATE", "ADD_QUANTITY", "ORDER"] : List String)) :
    LedgerInv { s with
      products := s.products.map (fun x =>
        if x.id = pid then { x with quantity := newq, updated_at := s.clock } else x),
      transactions := s.transactions ++
        [⟨s.next_txn_id, pid, ty, some p.quantity, newq, ch, s.clock⟩],
      next_txn_id := s.next_txn_id + 1,
      clock := s.clock + 1 } := by
  have hp_mem : p ∈ s.products := List.mem_of_find?_eq_some hf
  have hp_id : p.id = pid := by simpa using List.find?_some hf
  have hid_pres : ∀ x : Product,
      (if x.id = pid then { x with quantity := newq, updated_at := s.clock } else x).id = x.id := by
    intro x
    by_cases hx : x.id = pid <;> simp [hx]
  refine ⟨?_, ?_, ?_, ?_, ?_, ?_, ?_, ?_⟩ <;> dsimp only
  · -- nonneg
    intro x' hx'
    rw [List.mem_map] at hx'
    obtain ⟨x, hx, rfl⟩ := hx'
    by_cases hxid : x.id = pid
    · simpa [hxid] using hq
    · simpa [hxid] using hi.nonneg x hx
  · -- ids_nodup
    rw [List.map_map]
    have : (s.products.map (fun x =>
        Product.id (if x.id = pid then { x with quantity := newq, updated_at := s.clock } else x)))
        = s.products.map Product.id :=
      List.map_congr_left (fun x _ => hid_pres x)
    rw [Function.comp_def]
    rw [this]
    exact hi.ids_nodup
  · -- ids_lt
    intro x' hx'
    rw [List.mem_map] at hx'
    obtain ⟨x, hx, rfl⟩ := hx'
    rw [hid_pres x]
    exact hi.ids_lt x hx
  · -- txn_pid_lt
    intro t ht
    rcases List.mem_append.mp ht with ht | ht
    · exact hi.txn_pid_lt t ht
    · rw [List.mem_singleton] at ht
      subst ht
      have := hi.ids_lt p hp_mem
      dsimp only
      omega
  · -- perf_lt
    intro t ht
    rcases List.mem_append.mp ht with ht | ht
    · have := hi.perf_lt t ht; omega
    · rw [List.mem_singleton] at ht; subst ht; dsimp only; omega
  · -- perf_sorted
    rw [List.pairwise_append]
    refine ⟨hi.perf_sorted, by simp, ?_⟩
    intro a ha b hb
    rw [List.mem_singleton] at hb
    subst hb
    exact hi.perf_lt a ha
  · -- types_ok
    intro t ht
    rcases List.mem_append.mp ht with ht | ht
    · exact hi.types_ok t ht
    · rw [List.mem_singleton] at ht; subst ht; exact hty
  · -- ledger
    intro x' hx'
    simp only [txnsFor]
    rw [List.mem_map] at hx'
    obtain ⟨x, hx, rfl⟩ := hx'
    by_cases hxid : x.id = pid
    · have hxp : x = p :=
        List.inj_on_of_nodup_map hi.ids_nodup hx hp_mem (by rw [hxid, hp_id])
      subst hxp
      simp only [hid_pres, List.filter_append, List.filter_cons, List.filter_nil, hxid]
      simp only [beq_self_eq_true, if_true]
      have hrep : replay (List.filter (fun t => t.product_id == pid) s.transactions)
          = some x.quantity := by
        simpa [txnsFor, hxid] using hi.ledger x hx
      exact replay_append hrep rfl
    · have hcond : ¬pid = x.id := fun hcontra => hxid hcontra.symm
      simp only [hid_pres, List.filter_append, List.filter_cons, List.filter_nil]
      simp only [beq_iff_eq, hcond, if_false, List.append_nil, hxid, if_neg hxid]
      simpa [txnsFor] using hi.ledger x hx

theorem inv_update {s s' : DBState} {pid : Nat} {q : Int} {r : Product}
    (hi : LedgerInv s) (h : update_product_quantity true pid q s = (s', .ok r)) :
    LedgerInv s' := by
  obtain ⟨h1, p, hf, hr, hs'⟩ := update_ok_inv h
  subst hs'
  exact inv_mutate hi hf (Int.not_lt.mp h1) (by decide)

theorem inv_add {s s' : DBState} {pid : Nat} {d : Int} {r : Product}
    (hi : LedgerInv s) (h : add_quantity_to_product true pid d s = (s', .ok r)) :
    LedgerInv s' := by
  obtain ⟨h1, p, hf, hr, hs'⟩ := add_ok_inv h
  subst hs'
  have hp0 := hi.nonneg p (List.mem_of_find?_eq_some hf)
  exact inv_mutate hi hf (by omega) (by decide)

theorem inv_order {s s' : DBState} {pid : Nat} {d : Int} {r : Product}
    (hi : LedgerInv s) (h : order_product true pid d s = (s', .ok r)) :
    LedgerInv s' := by
  obtain ⟨h1, p, hf, h2, hr, hs'⟩ := order_ok_inv h
  subst hs'
  exact inv_mutate hi hf (by omega) (by decide)

theorem inv_delete {s s' : DBState} {pid : Nat} {nm : String}
    (hi : LedgerInv s) (h : delete_product pid s = (s', .ok nm)) :
    LedgerInv s' := by
  obtain ⟨p, hf, hnm, hs'⟩ := delete_ok_inv h
  subst hs'
  refine ⟨?_, ?_, ?_, ?_, ?_, ?_, ?_, ?_⟩ <;> dsimp only
  · intro x hx
    exact hi.nonneg x (List.mem_of_mem_filter hx)
  · exact List.Nodup.sublist (List.Sublist.map _ (List.filter_sublist _)) hi.ids_nodup
  · intro x hx
    exact hi.ids_lt x (List.mem_of_mem_filter hx)
  · intro t ht
    exact hi.txn_pid_lt t (List.mem_of_mem_filter ht)
  · intro t ht
    exact hi.perf_lt t (List.mem_of_mem_filter ht)
  · exact List.Pairwise.sublist (List.filter_sublist _) hi.perf_sorted
  · intro t ht
    exact hi.types_ok t (List.mem_of_mem_filter ht)
  · intro x hx
    rw [List.mem_filter] at hx
    obtain ⟨hx, hxne⟩ := hx
    have hne : x.id ≠ pid := by simpa using hxne
    simp only [txnsFor]
    rw [filter_ne_filter_eq _ _ _ hne]
    simpa [txnsFor] using hi.ledger x hx

theorem reachable_inv {s : DBState} (h : Reachable s) : LedgerInv s := by
  induction h with
  | init =>
    exact ⟨by simp [dbInit], by simp [dbInit], by simp [dbInit], by simp [dbInit],
      by simp [dbInit], by simp [dbInit], by simp [dbInit], by simp [dbInit]⟩
  | create _ heq ih => exact inv_create ih heq
  | update _ heq ih => exact inv_update ih heq
  | add _ heq ih => exact inv_add ih heq
  | order _ heq ih => exact inv_order ih heq
  | del _ heq ih => exact inv_delete ih heq

/-! ## Rollback helper lemmas -/

theorem runAtomic_error {α : Type} {s s1 : DBState} {body : Except DBErr (DBState × α)}
    {e : DBErr} (h : runAtomic s body = (s1, .error e)) : s1 = s := by
  cases body with
  | error e' => exact (congrArg Prod.fst h).symm
  | ok p => simp [runAtomic] at h

theorem update_rollback {b : Bool} {pid : Nat} {q : Int} {s s1 : DBState} {e : DBErr}
    (h : update_product_quantity b pid q s = (s1, .error e)) : s1 = s := by
  unfold update_product_quantity at h
  split at h
  · exact (congrArg Prod.fst h).symm
  · exact runAtomic_error h

theorem add_rollback {b : Bool} {pid : Nat} {d : Int} {s s1 : DBState} {e : DBErr}
    (h : add_quantity_to_product b pid d s = (s1, .error e)) : s1 = s := by
  unfold add_quantity_to_product at h
  split at h
  · exact (congrArg Prod.fst h).symm
  · exact runAtomic_error h

theorem order_rollback {b : Bool} {pid : Nat} {d : Int} {s s1 : DBState} {e : DBErr}
    (h : order_product b pid d s = (s1, .error e)) : s1 = s := by
  unfold order_product at h
  split at h
  · exact (congrArg Prod.fst h).symm
  · exact runAtomic_error h

theorem create_rollback {b : Bool} {n : String} {q : Int} {s s1 : DBState} {e : DBErr}
    (h : create_product b n q s = (s1, .error e)) : s1 = s := by
  unfold create_product at h
  split at h
  · exact (congrArg Prod.fst h).symm
  · split at h
    · exact (congrArg Prod.fst h).symm
    · exact runAtomic_error h

theorem delete_rollback {pid : Nat} {s s1 : DBState} {e : DBErr}
    (h : delete_product pid s = (s1, .error e)) : s1 = s := by
  unfold delete_product at h
  exact runAtomic_error h

/-! ## A small concrete reachable state, shared by the witnesses -/

/-- The product created by `create_product "Widget" 10` on the fresh store. -/
def prodW : Product := ⟨1, "Widget", 10, 0, 0⟩

/-- The store after `create_product "Widget" 10` on the fresh store. -/
def sWidget : DBState :=
  ⟨[⟨1, "Widget", 10, 0, 0⟩], [⟨1, 1, "CREATE", none, 10, 10, 0⟩], 2, 2, 1⟩

theorem create_widget_eq :
    create_product true "Widget" 10 dbInit = (sWidget, .ok prodW) := by decide

theorem reachable_sWidget : Reachable sWidget :=
  Reachable.create Reachable.init create_widget_eq

/-! ## The claims -/

/-- C1: for every reachable state of the store, every product's quantity is
an integer ≥ 0; each mutating operation (`create_product`,
`update_product_quantity`, `add_quantity_to_product`, `order_product`)
preserves this invariant. -/
theorem c1_quantity_nonneg :
    (∀ s, Reachable s → ∀ p ∈ s.products, 0 ≤ p.quantity) ∧
    (∀ s s' (n : String) (q : Int) (r : Product), Reachable s →
      create_product true n q s = (s', .ok r) → ∀ p ∈ s'.products, 0 ≤ p.quantity) ∧
    (∀ s s' (pid : Nat) (q : Int) (r : Product), Reachable s →
      update_product_quantity true pid q s = (s', .ok r) → ∀ p ∈ s'.products, 0 ≤ p.quantity) ∧
    (∀ s s' (pid : Nat) (d : Int) (r : Product), Reachable s →
      add_quantity_to_product true pid d s = (s', .ok r) → ∀ p ∈ s'.products, 0 ≤ p.quantity) ∧
    (∀ s s' (pid : Nat) (d : Int) (r : Product), Reachable s →
      order_product true pid d s = (s', .ok r) → ∀ p ∈ s'.products, 0 ≤ p.quantity) := by
  refine ⟨fun s hs => (reachable_inv hs).nonneg, ?_, ?_, ?_, ?_⟩
  · exact fun s s' n q r hs heq => (reachable_inv (Reachable.create hs heq)).nonneg
  · exact fun s s' pid q r hs heq => (reachable_inv (Reachable.update hs heq)).nonneg
  · exact fun s s' pid d r hs heq => (reachable_inv (Reachable.add hs heq)).nonneg
  · exact fun s s' pid d r hs heq => (reachable_inv (Reachable.order hs heq)).nonneg

theorem c1_quantity_nonneg_witness : 0 ≤ prodW.quantity :=
  c1_quantity_nonneg.1 sWidget reachable_sWidget prodW (by decide)

/-- C2: for every product of a reachable state, its logged transactions are
strictly increasing in `performed_at` (so the list *is* the `performed_at`
order), and replaying them — starting from the CREATE entry's
`new_quantity`, stepping each entry's `old_quantity` to its `new_quantity` —
reproduces the current quantity; moreover every successful mutation appends
exactly one entry recording the pre- and post-state. -/
theorem c2_ledger_replay :
    (∀ s, Reachable s → ∀ p ∈ s.products,
      (txnsFor p.id s).Pairwise (fun a b => a.performed_at < b.performed_at) ∧
      replay (txnsFor p.id s) = some p.quantity) ∧
    (∀ s s' (n : String) (q : Int) (r : Product),
      create_product true n q s = (s', .ok r) →
      s'.transactions = s.transactions ++
        [⟨s.next_txn_id, r.id, "CREATE", none, q, q, s.clock⟩]) ∧
    (∀ s s' (pid : Nat) (q : Int) (r : Product),
      update_product_quantity true pid q s = (s', .ok r) →
      ∃ p, getProduct pid s = some p ∧
        s'.transactions = s.transactions ++
          [⟨s.next_txn_id, pid, "UPDATE", some p.quantity, q, q - p.quantity, s.clock⟩]) ∧
    (∀ s s' (pid : Nat) (d : Int) (r : Product),
      add_quantity_to_product true pid d s = (s', .ok r) →
      ∃ p, getProduct pid s = some p ∧
        s'.transactions = s.transactions ++
          [⟨s.next_txn_id, pid, "ADD_QUANTITY", some p.quantity, p.quantity + d, d, s.clock⟩]) ∧
    (∀ s s' (pid : Nat) (d : Int) (r : Product),
      order_product true pid d s = (s', .ok r) →
      ∃ p, getProduct pid s = some p ∧
        s'.transactions = s.transactions ++
          [⟨s.next_txn_id, pid, "ORDER", some p.quantity, p.quantity - d, -d, s.clock⟩]) := by
  refine ⟨?_, ?_, ?_, ?_, ?_⟩
  · intro s hs p hp
    exact ⟨List.Pairwise.sublist (List.filter_sublist _) (reachable_inv hs).perf_sorted,
      (reachable_inv hs).ledger p hp⟩
  · intro s s' n q r h
    obtain ⟨_, _, _, hr, hs'⟩ := create_ok_inv h
    subst hs' hr
    rfl
  · intro s s' pid q r h
    obtain ⟨_, p, hf, hr, hs'⟩ := update_ok_inv h
    subst hs'
    exact ⟨p, hf, rfl⟩
  · intro s s' pid d r h
    obtain ⟨_, p, hf, hr, hs'⟩ := add_ok_inv h
    subst hs'
    exact ⟨p, hf, rfl⟩
  · intro s s' pid d r h
    obtain ⟨_, p, hf, _, hr, hs'⟩ := order_ok_inv h
    subst hs'
    exact ⟨p, hf, rfl⟩

theorem c2_ledger_replay_witness : replay (txnsFor 1 sWidget) = some prodW.quantity :=
  (c2_ledger_replay.1 sWidget reachable_sWidget prodW (by decide)).2

/-- C3: on any reachable state, ordering more than the available stock fails
with the insufficient-stock error, the state (hence the product's quantity)
is unchanged, and no transaction entry is appended. -/
theorem c3_insufficient_stock {s : DBState} {pid : Nat} {p : Product} {d : Int}
    (hs : Reachable s) (hp : getProduct pid s = some p) (hd : p.quantity < d) :
    order_product true pid d s = (s, .error (.insufficientStock p.quantity d)) ∧
    (order_product true pid d s).1.transactions = s.transactions ∧
    getQuantity pid (order_product true pid d s).1 = some p.quantity := by
  have h0 : 0 ≤ p.quantity :=
    (reachable_inv hs).nonneg p (List.mem_of_find?_eq_some hp)
  have hdpos : ¬d ≤ 0 := by omega
  have heq : order_product true pid d s = (s, .error (.insufficientStock p.quantity d)) := by
    unfold order_product
    unfold getProduct at hp
    rw [if_neg hdpos, hp]
    simp [runAtomic, hd]
  refine ⟨heq, by rw [heq], by rw [heq]; simp [getQuantity, hp]⟩

theorem c3_insufficient_stock_witness :
    order_product true 1 15 sWidget = (sWidget, .error (.insufficientStock 10 15)) :=
  (@c3_insufficient_stock sWidget 1 prodW 15 reachable_sWidget (by decide) (by decide)).1

/-- C4: mutations are atomic.  If the transaction-log insert fails after the
product-row `UPDATE`/`INSERT` has been issued (`insertOk = false`), the
whole unit rolls back: the observable state is the pre-call state, so the
quantity keeps its pre-call value and no orphan log entry is visible; and
whenever any step of any mutation fails, the result state is the pre-call
state. -/
theorem c4_atomic_rollback :
    (∀ (s : DBState) (pid : Nat) (q : Int) (p : Product),
      getProduct pid s = some p → 0 ≤ q →
      update_product_quantity false pid q s = (s, .error .storage)) ∧
    (∀ (s : DBState) (pid : Nat) (d : Int) (p : Product),
      getProduct pid s = some p → 0 < d →
      add_quantity_to_product false pid d s = (s, .error .storage)) ∧
    (∀ (s : DBState) (pid : Nat) (d : Int) (p : Product),
      getProduct pid s = some p → 0 < d → d ≤ p.quantity →
      order_product false pid d s = (s, .error .storage)) ∧
    (∀ (s : DBState) (n : String) (q : Int),
      pyIsalnum n = true → 0 ≤ q → (∀ p ∈ s.products, p.product_name ≠ n) →
      create_product false n q s = (s, .error .storage)) ∧
    (∀ (b : Bool) (s s1 : DBState) (pid : Nat) (q : Int) (e : DBErr),
      update_product_quantity b pid q s = (s1, .error e) → s1 = s) ∧
    (∀ (b : Bool) (s s1 : DBState) (pid : Nat) (d : Int) (e : DBErr),
      add_quantity_to_product b pid d s = (s1, .error e) → s1 = s) ∧
    (∀ (b : Bool) (s s1 : DBState) (pid : Nat) (d : Int) (e : DBErr),
      order_product b pid d s = (s1, .error e) → s1 = s) ∧
    (∀ (b : Bool) (s s1 : DBState) (n : String) (q : Int) (e : DBErr),
      create_product b n q s = (s1, .error e) → s1 = s) ∧
    (∀ (s s1 : DBState) (pid : Nat) (e : DBErr),
      delete_product pid s = (s1, .error e) → s1 = s) := by
  refine ⟨?_, ?_, ?_, ?_, ?_, ?_, ?_, ?_, ?_⟩
  · intro s pid q p hp hq
    unfold update_product_quantity
    unfold getProduct at hp
    rw [if_neg (Int.not_lt.mpr hq), hp]
    simp [runAtomic, log_transaction, Except.map]
  · intro s pid d p hp hd
    unfold add_quantity_to_product
    unfold getProduct at hp
    rw [if_neg (by omega : ¬d ≤ 0), hp]
    simp [runAtomic, log_transaction, Except.map]
  · intro s pid d p hp hd hle
    unfold order_product
    unfold getProduct at hp
    rw [if_neg (by omega : ¬d ≤ 0), hp]
    simp [runAtomic, log_transaction, Except.map, show ¬p.quantity < d by omega]
  · intro s n q h1 hq h3
    have hany : s.products.any (fun p => p.product_name == n) = false := by
      rw [List.any_eq_false]
      intro p hp
      simpa using h3 p hp
    unfold create_product
    simp [runAtomic, log_transaction, Except.map, h1, Int.not_lt.mpr hq, hany]
  · exact fun b s s1 pid q e h => update_rollback h
  · exact fun b s s1 pid d e h => add_rollback h
  · exact fun b s s1 pid d e h => order_rollback h
  · exact fun b s s1 n q e h => create_rollback h
  · exact fun s s1 pid e h => delete_rollback h

theorem c4_atomic_rollback_witness :
    update_product_quantity false 1 5 sWidget = (sWidget, .error .storage) :=
  c4_atomic_rollback.1 sWidget 1 5 prodW (by decide) (by decide)

theorem update_eq_of_found {s : DBState} {pid : Nat} {p : Product} {q : Int}
    (hp : s.products.find? (fun x => x.id == pid) = some p) (hq : ¬q < 0) :
    update_product_quantity true pid q s =
      ({ s with
          products := s.products.map (fun x =>
            if x.id == pid then { x with quantity := q, updated_at := s.clock } else x),
          transactions := s.transactions ++
            [⟨s.next_txn_id, pid, "UPDATE", some p.quantity, q, q - p.quantity, s.clock⟩],
          next_txn_id := s.next_txn_id + 1,
          clock := s.clock + 1 },
        .ok { p with quantity := q, updated_at := s.clock }) := by
  unfold update_product_quantity
  rw [if_neg hq, hp]
  simp [runAtomic, log_transaction, Except.map]

/-- C5: calling `update_product_quantity` (SetQuantity) twice with the same
`q` on an existing product leaves the quantity at `q` after the second call,
which still appends one more transaction entry with
`old_quantity = new_quantity = q` and `change_amount = 0`, so two entries
are appended in total. -/
theorem c5_set_twice {s : DBState} {pid : Nat} {p : Product} {q : Int}
    (hp : getProduct pid s = some p) (hq : 0 ≤ q) :
    (update_product_quantity true pid q s).2 =
      .ok { p with quantity := q, updated_at := s.clock } ∧
    getQuantity pid (update_product_quantity true pid q s).1 = some q ∧
    (update_product_quantity true pid q
        (update_product_quantity true pid q s).1).2 =
      .ok { p with quantity := q,
                   updated_at := (update_product_quantity true pid q s).1.clock } ∧
    getQuantity pid (update_product_quantity true pid q
        (update_product_quantity true pid q s).1).1 = some q ∧
    (update_product_quantity true pid q
        (update_product_quantity true pid q s).1).1.transactions =
      (update_product_quantity true pid q s).1.transactions ++
        [⟨(update_product_quantity true pid q s).1.next_txn_id, pid, "UPDATE",
          some q, q, 0, (update_product_quantity true pid q s).1.clock⟩] ∧
    (update_product_quantity true pid q
        (update_product_quantity true pid q s).1).1.transactions.length =
      s.transactions.length + 2 := by
  have hq' : ¬q < 0 := Int.not_lt.mpr hq
  have hp' : s.products.find? (fun x => x.id == pid) = some p := hp
  have hpid : p.id = pid := by simpa using List.find?_some hp'
  have h1 := update_eq_of_found hp' hq'
  have hid_gen : ∀ (clk : Nat) (x : Product),
      ((fun x => if x.id == pid
        then { x with quantity := q, updated_at := clk } else x) x).id = x.id := by
    intro clk x
    by_cases hx : x.id = pid <;> simp [hx]
  have hfind1 : (update_product_quantity true pid q s).1.products.find?
      (fun x => x.id == pid) = some { p with quantity := q, updated_at := s.clock } := by
    rw [h1]
    dsimp only
    rw [find?_map_id _ _ _ (hid_gen s.clock), hp']
    simp [hpid]
  have h2 := update_eq_of_found hfind1 hq'
  refine ⟨by rw [h1], ?_, ?_, ?_, ?_, ?_⟩
  · unfold getQuantity getProduct
    rw [hfind1]
    rfl
  · rw [h2]
  · unfold getQuantity getProduct
    rw [h2]
    dsimp only
    rw [find?_map_id _ _ _ (hid_gen (update_product_quantity true pid q s).1.clock), hfind1]
    simp [hpid]
  · rw [h2]
    dsimp only
    simp
  · rw [h2, h1]
    dsimp only
    simp [List.length_append]

theorem c5_set_twice_witness :
    (update_product_quantity true 1 7
        (update_product_quantity true 1 7 sWidget).1).1.transactions.length =
      sWidget.transactions.length + 2 :=
  (@c5_set_twice sWidget 1 prodW 7 (by decide) (by decide)).2.2.2.2.2

/-- C6: deleting an existing product removes its row and cascades deletion
of all its transaction entries (entries of other products untouched), so
the per-product and global transaction listings no longer return any entry
for that id; deleting a missing id fails with the not-found error and
changes nothing. -/
theorem c6_delete_cascade :
    (∀ (s : DBState) (pid : Nat) (p : Product), getProduct pid s = some p →
      delete_product pid s =
        ({ s with products := s.products.filter (fun x => !(x.id == pid)),
                  transactions := s.transactions.filter (fun t => !(t.product_id == pid)) },
         .ok p.product_name) ∧
      getProduct pid (delete_product pid s).1 = none ∧
      txnsFor pid (delete_product pid s).1 = [] ∧
      (∀ pid2, pid2 ≠ pid → txnsFor pid2 (delete_product pid s).1 = txnsFor pid2 s) ∧
      get_transactions_by_product pid (delete_product pid s).1 = [] ∧
      (∀ lim row, row ∈ get_all_transactions lim (delete_product pid s).1 →
        row.1.product_id ≠ pid)) ∧
    (∀ (s : DBState) (pid : Nat), getProduct pid s = none →
      delete_product pid s = (s, .error (.notFound pid))) := by
  constructor
  · intro s pid p hp
    have hp' : s.products.find? (fun x => x.id == pid) = some p := hp
    have heq : delete_product pid s =
        ({ s with products := s.products.filter (fun x => !(x.id == pid)),
                  transactions := s.transactions.filter (fun t => !(t.product_id == pid)) },
         .ok p.product_name) := by
      unfold delete_product
      rw [hp']
      rfl
    have htx : ((delete_product pid s).1).transactions.filter
        (fun t => t.product_id == pid) = [] := by
      rw [heq]
      dsimp only
      rw [List.filter_filter]
      rw [List.filter_eq_nil_iff]
      intro t _
      cases h : t.product_id == pid <;> simp [h]
    refine ⟨heq, ?_, ?_, ?_, ?_, ?_⟩
    · unfold getProduct
      rw [heq]
      dsimp only
      rw [List.find?_eq_none]
      intro x hx
      have := (List.mem_filter.mp hx).2
      simpa using this
    · exact htx
    · intro pid2 hne
      rw [heq]
      simp only [txnsFor]
      exact filter_ne_filter_eq _ _ _ hne
    · unfold get_transactions_by_product
      rw [htx]
      rfl
    · intro lim row hrow
      unfold get_all_transactions at hrow
      have hrow2 := List.Sublist.mem hrow (List.take_sublist _ _)
      rw [mem_isortBy] at hrow2
      rw [List.mem_filterMap] at hrow2
      obtain ⟨t, ht, hft⟩ := hrow2
      rw [heq] at ht
      dsimp only at ht
      have htne := (List.mem_filter.mp ht).2
      have hrowt : row.1 = t := by
        rcases Option.map_eq_some'.mp hft with ⟨pr, hpr, hrow1⟩
        rw [← hrow1]
      rw [hrowt]
      simpa using htne
  · intro s pid hp
    have hp' : s.products.find? (fun x => x.id == pid) = none := hp
    unfold delete_product
    rw [hp']
    rfl

theorem c6_delete_cascade_witness :
    getProduct 1 (delete_product 1 sWidget).1 = none ∧
    txnsFor 1 (delete_product 1 sWidget).1 = [] :=
  ⟨(c6_delete_cascade.1 sWidget 1 prodW (by decide)).2.1,
   (c6_delete_cascade.1 sWidget 1 prodW (by decide)).2.2.1⟩

/-- C7: creating a product fails with a validation error — aborting before
any write, with both tables unchanged — whenever the (stripped) name is
empty, not alphanumeric, or longer than the maximum length (100, enforced by
the `ProductCreate` request model), or the quantity is negative. -/
theorem c7_create_validation {raw : String} {q : Int} {s : DBState}
    (h : pyStrip raw = "" ∨ pyIsalnum (pyStrip raw) = false ∨
         100 < (pyStrip raw).length ∨ q < 0) :
    (api_create_product raw q s).1 = s ∧
    exceptIsValidation (api_create_product raw q s).2 = true := by
  unfold api_create_product validate_ProductCreate
  by_cases h1 : (pyStrip raw).length < 1
  · simp [h1, exceptIsValidation, DBErr.isValidation]
  · by_cases h2 : 100 < (pyStrip raw).length
    · simp [h1, h2, exceptIsValidation, DBErr.isValidation]
    · by_cases h3 : pyIsalnum (pyStrip raw)
      · by_cases h4 : q < 0
        · simp [h1, h2, h3, h4, exceptIsValidation, DBErr.isValidation]
        · exfalso
          rcases h with h | h | h | h
          · rw [h] at h1
            exact h1 (by decide)
          · simp [h3] at h
          · exact h2 h
          · exact h4 h
      · simp [h1, h2, h3, exceptIsValidation, DBErr.isValidation]

theorem c7_create_validation_witness :
    (api_create_product "Widget" (-1) dbInit).1 = dbInit ∧
    exceptIsValidation (api_create_product "Widget" (-1) dbInit).2 = true :=
  @c7_create_validation "Widget" (-1) dbInit (Or.inr (Or.inr (Or.inr (by decide))))

/-- C8, counterexample to the claim as stated: a successful SetQuantity
(`update_product_quantity`) logs an entry of type `"UPDATE"`, which is not
in the claimed set {CREATE, SET, INCREMENT, DECREMENT}. -/
theorem c8_txn_types_counterexample :
    (update_product_quantity true 1 5 sWidget).1.transactions =
      [⟨1, 1, "CREATE", none, 10, 10, 0⟩, ⟨2, 1, "UPDATE", some 10, 5, -5, 1⟩] ∧
    ¬("UPDATE" ∈ (["CREATE", "SET", "INCREMENT", "DECREMENT"] : List String)) := by
  decide

/-- C8 as amended: every transaction entry's type is one of
{CREATE, UPDATE, ADD_QUANTITY, ORDER}; `create_product` logs CREATE,
SetQuantity (`update_product_quantity`) logs UPDATE, IncrementQuantity
(`add_quantity_to_product`) logs ADD_QUANTITY, and DecrementQuantity
(`order_product`) logs ORDER. -/
theorem c8_txn_types_amended :
    (∀ s, Reachable s → ∀ t ∈ s.transactions,
      t.transaction_type ∈ (["CREATE", "UPDATE", "ADD_QUANTITY", "ORDER"] : List String)) ∧
    (∀ s s' (n : String) (q : Int) (r : Product),
      create_product true n q s = (s', .ok r) →
      ∃ t, s'.transactions = s.transactions ++ [t] ∧ t.transaction_type = "CREATE") ∧
    (∀ s s' (pid : Nat) (q : Int) (r : Product),
      update_product_quantity true pid q s = (s', .ok r) →
      ∃ t, s'.transactions = s.transactions ++ [t] ∧ t.transaction_type = "UPDATE") ∧
    (∀ s s' (pid : Nat) (d : Int) (r : Product),
      add_quantity_to_product true pid d s = (s', .ok r) →
      ∃ t, s'.transactions = s.transactions ++ [t] ∧ t.transaction_type = "ADD_QUANTITY") ∧
    (∀ s s' (pid : Nat) (d : Int) (r : Product),
      order_product true pid d s = (s', .ok r) →
      ∃ t, s'.transactions = s.transactions ++ [t] ∧ t.transaction_type = "ORDER") := by
  refine ⟨fun s hs => (reachable_inv hs).types_ok, ?_, ?_, ?_, ?_⟩
  · intro s s' n q r h
    obtain ⟨_, _, _, hr, hs'⟩ := create_ok_inv h
    subst hs'
    exact ⟨_, rfl, rfl⟩
  · intro s s' pid q r h
    obtain ⟨_, p, hf, hr, hs'⟩ := update_ok_inv h
    subst hs'
    exact ⟨_, rfl, rfl⟩
  · intro s s' pid d r h
    obtain ⟨_, p, hf, hr, hs'⟩ := add_ok_inv h
    subst hs'
    exact ⟨_, rfl, rfl⟩
  · intro s s' pid d r h
    obtain ⟨_, p, hf, _, hr, hs'⟩ := order_ok_inv h
    subst hs'
    exact ⟨_, rfl, rfl⟩

theorem c8_txn_types_amended_witness :
    (⟨1, 1, "CREATE", none, 10, 10, 0⟩ : InvTxn).transaction_type ∈
      (["CREATE", "UPDATE", "ADD_QUANTITY", "ORDER"] : List String) :=
  c8_txn_types_amended.1 sWidget reachable_sWidget ⟨1, 1, "CREATE", none, 10, 10, 0⟩ (by decide)

/-- C9, counterexample to the claim as stated: with both bounds supplied and
`min > max`, `search_products` does fail and return no product list, but
the failure surfaces as HTTP 500 ("Internal server error"), not as a 400
validation error — its own `HTTPException(400)` is caught by the handler's
blanket `except Exception` clause. -/
theorem c9_search_counterexample :
    search_products none (some 5) (some 2) none dbInit =
      .error ⟨500,
        "Internal server error: 400: min_quantity cannot be greater than max_quantity"⟩ ∧
    (500 : Nat) ≠ 400 ∧ (500 : Nat) ≠ 422 := by
  refine ⟨?_, by decide, by decide⟩
  decide

/-- C9 as amended: for every pair of supplied bounds with
`min_quantity > max_quantity`, `search_products` returns no product list and
fails — but with an HTTP 500 internal-server error wrapping its own 400,
rather than a validation error. -/
theorem c9_search_amended {a b : Int} (nm : Option String) (inst : Option Bool)
    (s : DBState) (h : b < a) :
    search_products nm (some a) (some b) inst s =
      .error ⟨500,
        "Internal server error: 400: min_quantity cannot be greater than max_quantity"⟩ := by
  simp [search_products, h]

theorem c9_search_amended_witness :
    search_products none (some 5) (some 2) none dbInit =
      .error ⟨500,
        "Internal server error: 400: min_quantity cannot be greater than max_quantity"⟩ :=
  @c9_search_amended 5 2 none none dbInit (by decide)

/-- C10: the in-stock filter of `search_products` is decided by the
threshold `quantity > 0`, not the In-Stock threshold of 5: with
`instock = true` exactly the products with positive quantity pass, with
`instock = false` exactly those with quantity ≤ 0; the search returns the
products passing `product_matches`, and a quantity-3 product (classified
"Low Stock", below the In-Stock threshold) passes the `instock = true`
filter. -/
theorem c10_instock_filter :
    (∀ (nm : Option String) (mi ma : Option Int) (p : Product),
      product_matches nm mi ma (some true) p =
        (product_matches nm mi ma none p && decide (0 < p.quantity)) ∧
      product_matches nm mi ma (some false) p =
        (product_matches nm mi ma none p && decide (p.quantity ≤ 0))) ∧
    (∀ (nm : Option String) (a b : Int) (inst : Option Bool) (s : DBState), a ≤ b →
      search_products nm (some a) (some b) inst s =
        .ok ((get_all_products s).filter (product_matches nm (some a) (some b) inst))) ∧
    (product_matches none none none (some true) ⟨1, "x", 3, 0, 0⟩ = true ∧
      stock_status 3 = "Low Stock") := by
  refine ⟨?_, ?_, by decide⟩
  · intro nm mi ma p
    constructor
    · simp only [product_matches, Bool.and_true]
      by_cases hq : p.quantity ≤ 0
      · simp [hq, show ¬(0 < p.quantity) by omega]
      · simp [hq, show 0 < p.quantity by omega]
    · simp only [product_matches, Bool.and_true]
      by_cases hq : p.quantity ≤ 0
      · simp [hq, show ¬(0 < p.quantity) by omega]
      · simp [hq, show 0 < p.quantity by omega]
  · intro nm a b inst s hab
    simp [search_products, show ¬b < a by omega]

theorem c10_instock_filter_witness :
    search_products none (some 0) (some 5) none dbInit =
      .ok ((get_all_products dbInit).filter (product_matches none (some 0) (some 5) none)) :=
  c10_instock_filter.2.1 none 0 5 none dbInit (by decide)
